import Mathlib

/-!
Verification of the conversational client in `src/llm/llm.py`
(repository trizko/InfiniteContext).

The repository keeps a rolling chat history, counts tokens for a list of
role/content messages, truncates the history to a bounded context window,
and forwards that window to a remote chat-completion endpoint.  The remote
endpoint, the sub-word tokenizer (tiktoken) and the JSON codec are external
collaborators; they appear here as function parameters, so every theorem
quantifies over their behaviour at the boundary the code actually consumes:
`encode : String → List Nat` (only the length of the result is used),
`create : List Message → Except Unit ChatResponse` (the chat-completions
call: either a transport failure or a reply with a reported token usage),
and `decodeSummary : String → Option (List Message)` (the `json.loads`
plus `["summary"]` extraction used by `summarize`).

Python exceptions are modelled with `Except`; the mutable
`self.full_message_history` is modelled by explicit state passing: functions
that mutate it take the history before the call and return the history
after the call, also when they end in an error, exactly as the Python
field retains its mutations when an exception propagates.
-/

/-- A chat message as the repository builds and consumes it: a `role`
string and a `content` string, with an optional `name` field as in the
OpenAI chat format (`num_tokens` charges an extra token for a name field). -/
structure Message where
  role : String
  content : String
  name : Option String := none
deriving Repr, DecidableEq

/-- The field list of a message, in the order Python dict iteration yields
them for the dict literals the repository constructs (`role`, `content`,
then `name` when present).  This is what `for key, value in message.items()`
ranges over in `num_tokens`. -/
def Message.items (m : Message) : List (String × String) :=
  [("role", m.role), ("content", m.content)] ++
    (match m.name with
     | some n => [("name", n)]
     | none => [])

/-- Body of the inner loop of `num_tokens`: for one `(key, value)` field,
add the length of the tokenizer encoding of the value, plus the
`tokens_per_name = 1` overhead when the key is `"name"`. -/
def fieldStep (encode : String → List Nat) (acc : Nat) (kv : String × String) : Nat :=
  acc + (encode kv.2).length + (if kv.1 = "name" then 1 else 0)

/-- Body of the outer loop of `num_tokens`: for one message, add the
`tokens_per_message = 3` overhead and then fold the inner loop over the
message fields. -/
def messageStep (encode : String → List Nat) (acc : Nat) (message : Message) : Nat :=
  message.items.foldl (fieldStep encode) (acc + 3)

/-- Embedding of `LLM.num_tokens` (src/llm/llm.py lines 14-36): fold the
per-message loop over the list, then add the reply-priming overhead 3.
The external tokenizer is the parameter `encode`; the code only uses
`len(self.tokenizer.encode(value))`. -/
def num_tokens (encode : String → List Nat) (messages : List Message) : Nat :=
  messages.foldl (messageStep encode) 0 + 3

/-- The per-message count as the specification words it: a fixed overhead
of 3, plus the tokenizer length of every field value, plus an extra 1 when
the message has a name field. -/
def specMessageCount (encode : String → List Nat) (m : Message) : Nat :=
  3 + (m.items.map (fun kv => (encode kv.2).length)).sum +
    (if m.name.isSome then 1 else 0)

/-- The total count as the specification words it: the sum of the
per-message counts plus a final reply-priming overhead of 3. -/
def specCount (encode : String → List Nat) (messages : List Message) : Nat :=
  (messages.map (specMessageCount encode)).sum + 3

/-- One step of the outer loop adds exactly the per-message count of the
specification formula. -/
lemma messageStep_eq (encode : String → List Nat) (acc : Nat) (m : Message) :
    messageStep encode acc m = acc + specMessageCount encode m := by
  cases h : m.name <;>
    simp [messageStep, fieldStep, Message.items, specMessageCount, h] <;>
    omega

/-- Folding the outer loop from any accumulator adds the sum of the
per-message counts. -/
lemma foldl_messageStep (encode : String → List Nat) (messages : List Message) :
    ∀ acc : Nat, messages.foldl (messageStep encode) acc =
      acc + (messages.map (specMessageCount encode)).sum := by
  induction messages with
  | nil => intro acc; simp
  | cons m ms ih =>
      intro acc
      rw [List.foldl_cons, messageStep_eq, ih]
      simp [Nat.add_assoc]

/-- Embedding of `LLM.manage_context_window` (src/llm/llm.py line 87):
`self.full_message_history[-4:]`, the last four messages (the whole history
when it is shorter than four). -/
def manage_context_window (full_message_history : List Message) : List Message :=
  full_message_history.drop (full_message_history.length - 4)

/-- The reply object the remote chat-completions endpoint returns, at the
boundary the code consumes: `response.choices[0].message.content` and
`response.usage.total_tokens`. -/
structure ChatResponse where
  content : String
  total_tokens : Nat
deriving Repr, DecidableEq

/-- The error kinds the client can surface, as named by the specification.
`invalidRole` models the ValueError of `send_message` for an unknown role;
`contextWindowExceeded` models the ValueError raised when reported usage
exceeds 4096; `transportError` models an exception propagating out of the
OpenAI client call; `malformedSummary` models the JSONDecodeError or
KeyError raised in `summarize` when the structured output fails to parse
as the expected schema with a summary field. -/
inductive LLMError where
  | invalidRole
  | contextWindowExceeded
  | transportError
  | malformedSummary
deriving Repr, DecidableEq

/-- Embedding of `LLM.gpt4_conversation` (src/llm/llm.py lines 140-182).
The remote call is the parameter `create`; a transport failure propagates,
and a completed reply whose reported `total_tokens` exceeds 4096 raises the
context-window ValueError, otherwise the response is returned. -/
def gpt4_conversation (create : List Message → Except Unit ChatResponse)
    (messages : List Message) : Except LLMError ChatResponse :=
  match create messages with
  | Except.error _ => Except.error LLMError.transportError
  | Except.ok response =>
      if response.total_tokens > 4096 then
        Except.error LLMError.contextWindowExceeded
      else
        Except.ok response

/-- Embedding of the body of `LLM.send_message` after the role dispatch
(src/llm/llm.py lines 126-137): the history already holds the appended
input message; build the context window, call the model, and on success
append the assistant reply.  Returns the history after the call together
with the outcome, since the Python field keeps its mutations when the call
raises. -/
def send_message_core (create : List Message → Except Unit ChatResponse)
    (full_message_history : List Message) : List Message × Except LLMError String :=
  let context_window := manage_context_window full_message_history
  match gpt4_conversation create context_window with
  | Except.error e => (full_message_history, Except.error e)
  | Except.ok response =>
      let ai_message := response.content
      (full_message_history ++ [⟨"assistant", ai_message, none⟩],
        Except.ok ai_message)

/-- Embedding of `LLM.send_message` (src/llm/llm.py lines 89-137): dispatch
on the role, appending the input as a message for the three recognized
roles and raising the invalid-role ValueError otherwise, then run the
call/append body. -/
def send_message (create : List Message → Except Unit ChatResponse)
    (full_message_history : List Message) (prompt : String) (role : String) :
    List Message × Except LLMError String :=
  if role = "user" then
    send_message_core create (full_message_history ++ [⟨"user", prompt, none⟩])
  else if role = "assistant" then
    send_message_core create (full_message_history ++ [⟨"assistant", prompt, none⟩])
  else if role = "system" then
    send_message_core create (full_message_history ++ [⟨"system", prompt, none⟩])
  else
    (full_message_history, Except.error LLMError.invalidRole)

/-- Embedding of `LLM.gpt4_one_shot` (src/llm/llm.py lines 185-232): a
one-shot call with a system and a user message; same post-call usage check
as `gpt4_conversation`, returning the reply content on success. -/
def gpt4_one_shot (create : List Message → Except Unit ChatResponse)
    (system_prompt : String) (user_prompt : String) : Except LLMError String :=
  match create [⟨"system", system_prompt, none⟩, ⟨"user", user_prompt, none⟩] with
  | Except.error _ => Except.error LLMError.transportError
  | Except.ok response =>
      if response.total_tokens > 4096 then
        Except.error LLMError.contextWindowExceeded
      else
        Except.ok response.content

/-- The fixed summarization instruction prompt of `summarize`
(src/llm/llm.py lines 50-68), condensed: its exact wording plays no role in
any property proved here (no code path inspects it), so the JSON example
braces and quote characters of the original literal are omitted. -/
def summary_prompt : String :=
  "Summarize the following JSON representation of a conversation between a human and a chatbot. The summary MUST be under 1024 tokens in length. Return your results as a JSON with a summary field."

/-- Embedding of `LLM.summarize` (src/llm/llm.py lines 39-76): one-shot
call with the fixed prompt and the JSON dump of the messages, then
`json.loads(...)["summary"]`.  The JSON codec is external: `dumps` models
`json.dumps`, and `decodeSummary` models the parse-and-extract step, with
`none` standing for the JSONDecodeError or KeyError it raises on output
that fails to parse as the expected schema. -/
def summarize (create : List Message → Except Unit ChatResponse)
    (dumps : List Message → String)
    (decodeSummary : String → Option (List Message))
    (messages : List Message) : Except LLMError (List Message) :=
  match gpt4_one_shot create summary_prompt (dumps messages) with
  | Except.error e => Except.error e
  | Except.ok ai_message_json =>
      match decodeSummary ai_message_json with
      | none => Except.error LLMError.malformedSummary
      | some summary => Except.ok summary

/-- The loop of `num_tokens` computes the closed-form sum of the
per-message counts plus the final reply-priming overhead. -/
lemma num_tokens_eq_specCount (encode : String → List Nat)
    (messages : List Message) :
    num_tokens encode messages = specCount encode messages := by
  rw [num_tokens, specCount, foldl_messageStep, Nat.zero_add]

/-- C1: for every tokenizer and every list of messages, `num_tokens`
returns the sum over all messages of (a fixed per-message overhead of 3,
plus the length of the tokenizer encoding of every field value, plus an
extra 1 when the message has a name field), plus a final reply-priming
overhead of 3 added once after the sum. -/
theorem num_tokens_matches_spec_formula (encode : String → List Nat)
    (messages : List Message) :
    num_tokens encode messages = specCount encode messages :=
  num_tokens_eq_specCount encode messages

/-- C6: `num_tokens` on the empty message list is exactly 3, the
reply-priming overhead only, for every tokenizer (so no tokenizer output
is consumed). -/
theorem num_tokens_empty (encode : String → List Nat) :
    num_tokens encode [] = 3 := rfl

/-- C2: on a history of more than four messages, `manage_context_window`
returns exactly the last four messages: the result has length four and
re-attaching it after the dropped front reconstructs the history, so the
four are in their original order with content unchanged. -/
theorem manage_context_window_keeps_last_four (history : List Message)
    (h : 4 < history.length) :
    (manage_context_window history).length = 4 ∧
      history.take (history.length - 4) ++ manage_context_window history = history := by
  constructor
  · rw [manage_context_window, List.length_drop]
    omega
  · rw [manage_context_window, List.take_append_drop]

/-- Concrete five-message history used to instantiate the truncation
theorems. -/
def hist5 : List Message :=
  [⟨"system", "s0", none⟩, ⟨"user", "u1", none⟩, ⟨"assistant", "a1", none⟩,
    ⟨"user", "u2", none⟩, ⟨"assistant", "a2", none⟩]

/-- Witness for C2 at a concrete five-message history. -/
theorem manage_context_window_keeps_last_four_witness :
    4 < hist5.length ∧
      ((manage_context_window hist5).length = 4 ∧
        hist5.take (hist5.length - 4) ++ manage_context_window hist5 = hist5) :=
  ⟨by decide, manage_context_window_keeps_last_four hist5 (by decide)⟩

/-- C8: a reply just appended to the history is included in the context
window selected immediately afterwards, whenever the total history length
is at most four. -/
theorem select_includes_appended_reply (history : List Message) (reply : Message)
    (h : (history ++ [reply]).length ≤ 4) :
    reply ∈ manage_context_window (history ++ [reply]) := by
  have hz : (history ++ [reply]).length - 4 = 0 := by omega
  rw [manage_context_window, hz, List.drop_zero]
  exact List.mem_append_right _ (List.mem_singleton_self reply)

/-- Witness for C8: a three-message history plus an appended reply. -/
theorem select_includes_appended_reply_witness :
    ((hist5.take 3) ++ [(⟨"assistant", "r", none⟩ : Message)]).length ≤ 4 ∧
      (⟨"assistant", "r", none⟩ : Message) ∈
        manage_context_window ((hist5.take 3) ++ [⟨"assistant", "r", none⟩]) :=
  ⟨by decide, select_includes_appended_reply (hist5.take 3) ⟨"assistant", "r", none⟩ (by decide)⟩

/-- C3: for a role outside the three recognized values, `send_message`
returns the invalid-role error with the history unchanged, for every
adapter (so the result is independent of any network behaviour). -/
theorem send_message_invalid_role_leaves_history
    (create : List Message → Except Unit ChatResponse)
    (full_message_history : List Message) (prompt role : String)
    (h1 : role ≠ "user") (h2 : role ≠ "assistant") (h3 : role ≠ "system") :
    send_message create full_message_history prompt role =
      (full_message_history, Except.error LLMError.invalidRole) := by
  rw [send_message, if_neg h1, if_neg h2, if_neg h3]

/-- A concrete adapter that always completes with a small reply. -/
def okCreate : List Message → Except Unit ChatResponse :=
  fun _ => Except.ok ⟨"hi", 42⟩

/-- Witness for C3 at the role string used by the specification example. -/
theorem send_message_invalid_role_leaves_history_witness :
    ("moderator" : String) ≠ "user" ∧ ("moderator" : String) ≠ "assistant" ∧
      ("moderator" : String) ≠ "system" ∧
      send_message okCreate hist5 "p" "moderator" =
        (hist5, Except.error LLMError.invalidRole) :=
  ⟨by decide, by decide, by decide,
    send_message_invalid_role_leaves_history okCreate hist5 "p" "moderator"
      (by decide) (by decide) (by decide)⟩

/-- Whatever the adapter does, `send_message_core` either leaves the
history it was given unchanged (the call failed, before the reply append)
or appends exactly the assistant reply of a completed call. -/
lemma send_message_core_hist (create : List Message → Except Unit ChatResponse)
    (st : List Message) :
    (send_message_core create st).1 = st ∨
      ∃ r, create (manage_context_window st) = Except.ok r ∧
        (send_message_core create st).1 = st ++ [⟨"assistant", r.content, none⟩] := by
  cases hc : create (manage_context_window st) with
  | error e =>
      left
      simp [send_message_core, gpt4_conversation, hc]
  | ok r =>
      by_cases hgt : r.total_tokens > 4096
      · left
        simp [send_message_core, gpt4_conversation, hc, hgt]
      · right
        exact ⟨r, rfl, by simp [send_message_core, gpt4_conversation, hc, hgt]⟩

/-- For a recognized role, `send_message` is the call/append body run on
the history with the input turn appended. -/
lemma send_message_valid (create : List Message → Except Unit ChatResponse)
    (st : List Message) (prompt role : String)
    (hrole : role = "user" ∨ role = "assistant" ∨ role = "system") :
    send_message create st prompt role =
      send_message_core create (st ++ [⟨role, prompt, none⟩]) := by
  rcases hrole with h | h | h <;> subst h <;> rw [send_message]
  · rw [if_pos rfl]
  · rw [if_neg (by decide), if_pos rfl]
  · rw [if_neg (by decide), if_neg (by decide), if_pos rfl]

/-- C5: for every recognized role and every input text, `send_message`
first appends exactly one message (the input turn) to the history, before
the context window is built and the adapter is consulted; whatever the
network outcome, the final history is that one-appended history, possibly
followed only by the assistant reply of a completed call. -/
theorem send_message_appends_one_before_call
    (create : List Message → Except Unit ChatResponse)
    (full_message_history : List Message) (prompt role : String)
    (hrole : role = "user" ∨ role = "assistant" ∨ role = "system") :
    (send_message create full_message_history prompt role).1 =
        full_message_history ++ [⟨role, prompt, none⟩] ∨
      ∃ r, create (manage_context_window
            (full_message_history ++ [⟨role, prompt, none⟩])) = Except.ok r ∧
        (send_message create full_message_history prompt role).1 =
          full_message_history ++ [⟨role, prompt, none⟩] ++
            [⟨"assistant", r.content, none⟩] := by
  rw [send_message_valid create full_message_history prompt role hrole]
  rcases send_message_core_hist create
      (full_message_history ++ [⟨role, prompt, none⟩]) with h | ⟨r, hr, h⟩
  · exact Or.inl h
  · exact Or.inr ⟨r, hr, h⟩

/-- Witness for C5: the always-completing adapter and the role `user`. -/
theorem send_message_appends_one_before_call_witness :
    (("user" : String) = "user" ∨ ("user" : String) = "assistant" ∨
        ("user" : String) = "system") ∧
      ((send_message okCreate [] "p" "user").1 = [] ++ [⟨"user", "p", none⟩] ∨
        ∃ r, okCreate (manage_context_window ([] ++ [⟨"user", "p", none⟩])) =
            Except.ok r ∧
          (send_message okCreate [] "p" "user").1 =
            [] ++ [⟨"user", "p", none⟩] ++ [⟨"assistant", r.content, none⟩]) :=
  ⟨Or.inl rfl,
    send_message_appends_one_before_call okCreate [] "p" "user" (Or.inl rfl)⟩

/-- C4: when the remote call completes but reports more than 4096 total
tokens, `send_message` ends with the context-window-exceeded error; the
already-computed reply is never appended, while the just-appended input
turn remains, so the final history is the old history plus the sole
uncommitted input message. -/
theorem send_message_exceeded_uncommitted_turn
    (create : List Message → Except Unit ChatResponse)
    (full_message_history : List Message) (prompt role : String) (r : ChatResponse)
    (hrole : role = "user" ∨ role = "assistant" ∨ role = "system")
    (hok : create (manage_context_window
        (full_message_history ++ [⟨role, prompt, none⟩])) = Except.ok r)
    (hgt : 4096 < r.total_tokens) :
    send_message create full_message_history prompt role =
      (full_message_history ++ [⟨role, prompt, none⟩],
        Except.error LLMError.contextWindowExceeded) := by
  rw [send_message_valid create full_message_history prompt role hrole]
  simp [send_message_core, gpt4_conversation, hok, hgt]

/-- A concrete adapter that always completes reporting 5000 total tokens. -/
def bigCreate : List Message → Except Unit ChatResponse :=
  fun _ => Except.ok ⟨"big", 5000⟩

/-- Witness for C4 with the over-limit adapter and the role `user`. -/
theorem send_message_exceeded_uncommitted_turn_witness :
    (("user" : String) = "user" ∨ ("user" : String) = "assistant" ∨
        ("user" : String) = "system") ∧
      bigCreate (manage_context_window ([] ++ [⟨"user", "p", none⟩])) =
        Except.ok ⟨"big", 5000⟩ ∧
      4096 < (5000 : Nat) ∧
      send_message bigCreate [] "p" "user" =
        ([] ++ [⟨"user", "p", none⟩], Except.error LLMError.contextWindowExceeded) :=
  ⟨Or.inl rfl, rfl, by decide,
    send_message_exceeded_uncommitted_turn bigCreate [] "p" "user" ⟨"big", 5000⟩
      (Or.inl rfl) rfl (by decide)⟩

/-- C10: the hard-limit check is strict.  When the completed call reports
exactly 4096 total tokens, `send_message` succeeds: the reply is appended
to the history and returned.  Moreover `gpt4_conversation` signals the
context-window-exceeded error only for a completed call reporting strictly
more than 4096 tokens. -/
theorem hard_limit_boundary
    (create : List Message → Except Unit ChatResponse)
    (full_message_history : List Message) (prompt role : String) (r : ChatResponse)
    (hrole : role = "user" ∨ role = "assistant" ∨ role = "system")
    (hok : create (manage_context_window
        (full_message_history ++ [⟨role, prompt, none⟩])) = Except.ok r)
    (heq : r.total_tokens = 4096) :
    send_message create full_message_history prompt role =
        (full_message_history ++ [⟨role, prompt, none⟩] ++
          [⟨"assistant", r.content, none⟩], Except.ok r.content) ∧
      ∀ ms : List Message,
        gpt4_conversation create ms = Except.error LLMError.contextWindowExceeded →
          ∃ resp : ChatResponse, create ms = Except.ok resp ∧
            4096 < resp.total_tokens := by
  constructor
  · have hn : ¬ (r.total_tokens > 4096) := by omega
    rw [send_message_valid create full_message_history prompt role hrole]
    simp [send_message_core, gpt4_conversation, hok, hn]
  · intro ms hms
    cases hc : create ms with
    | error e => simp [gpt4_conversation, hc] at hms
    | ok resp =>
        by_cases hgt : resp.total_tokens > 4096
        · exact ⟨resp, rfl, hgt⟩
        · simp [gpt4_conversation, hc, hgt] at hms

/-- A concrete adapter that always completes reporting exactly 4096
total tokens. -/
def atLimitCreate : List Message → Except Unit ChatResponse :=
  fun _ => Except.ok ⟨"hi", 4096⟩

/-- Witness for C10 with the at-limit adapter and the role `user`. -/
theorem hard_limit_boundary_witness :
    (("user" : String) = "user" ∨ ("user" : String) = "assistant" ∨
        ("user" : String) = "system") ∧
      atLimitCreate (manage_context_window ([] ++ [⟨"user", "p", none⟩])) =
        Except.ok ⟨"hi", 4096⟩ ∧
      (send_message atLimitCreate [] "p" "user" =
          ([] ++ [⟨"user", "p", none⟩] ++ [⟨"assistant", "hi", none⟩],
            Except.ok "hi") ∧
        ∀ ms : List Message,
          gpt4_conversation atLimitCreate ms =
              Except.error LLMError.contextWindowExceeded →
            ∃ resp : ChatResponse, atLimitCreate ms = Except.ok resp ∧
              4096 < resp.total_tokens) :=
  ⟨Or.inl rfl, rfl,
    hard_limit_boundary atLimitCreate [] "p" "user" ⟨"hi", 4096⟩
      (Or.inl rfl) rfl rfl⟩

/-- C9: when the one-shot summarization call completes but its output
fails to parse as the expected schema with a summary field, `summarize`
surfaces the malformed-summary error; and any successful result of
`summarize` is exactly the summary field parsed out of the completed
call's output, so no result is ever derived from malformed output and no
truncation fallback occurs. -/
theorem summarize_malformed_surfaces
    (create : List Message → Except Unit ChatResponse)
    (dumps : List Message → String)
    (decodeSummary : String → Option (List Message))
    (messages : List Message) :
    (∀ s : String,
        gpt4_one_shot create summary_prompt (dumps messages) = Except.ok s →
        decodeSummary s = none →
        summarize create dumps decodeSummary messages =
          Except.error LLMError.malformedSummary) ∧
      (∀ result : List Message,
        summarize create dumps decodeSummary messages = Except.ok result →
        ∃ s : String,
          gpt4_one_shot create summary_prompt (dumps messages) = Except.ok s ∧
            decodeSummary s = some result) := by
  constructor
  · intro s hs hbad
    simp [summarize, hs, hbad]
  · intro result hres
    cases hg : gpt4_one_shot create summary_prompt (dumps messages) with
    | error e => simp [summarize, hg] at hres
    | ok s =>
        cases hd : decodeSummary s with
        | none => simp [summarize, hg, hd] at hres
        | some l =>
            simp [summarize, hg, hd] at hres
            exact ⟨s, rfl, by rw [hd, hres]⟩

/-- A concrete adapter whose completed reply is not parseable summary
output. -/
def badCreate : List Message → Except Unit ChatResponse :=
  fun _ => Except.ok ⟨"garbage", 10⟩

/-- A concrete model of `json.dumps` for the empty message list. -/
def emptyDumps : List Message → String := fun _ => "[]"

/-- A concrete decoder on which every string fails to parse as the
expected schema. -/
def noParse : String → Option (List Message) := fun _ => none

/-- Witness for C9: the completed call returns unparseable output and
`summarize` ends in the malformed-summary error. -/
theorem summarize_malformed_surfaces_witness :
    gpt4_one_shot badCreate summary_prompt (emptyDumps []) = Except.ok "garbage" ∧
      noParse "garbage" = none ∧
      summarize badCreate emptyDumps noParse [] =
        Except.error LLMError.malformedSummary :=
  ⟨rfl, rfl, (summarize_malformed_surfaces badCreate emptyDumps noParse []).1
    "garbage" rfl rfl⟩

/-- A tokenizer instance that emits one token per two characters
(rounding up), as sub-word tokenizers routinely do: distinct text lengths
can encode to equally many tokens. -/
def pairEncode : String → List Nat :=
  fun s => List.range ((s.length + 1) / 2)

/-- Counterexample to C7 as stated: it is not the case that, for every
tokenizer, strictly lengthening the content text of a message strictly
increases `num_tokens`.  Under `pairEncode`, lengthening the content of a
single user message from one character to two leaves the count unchanged. -/
theorem num_tokens_text_length_not_strict_mono :
    ¬ ∀ (encode : String → List Nat) (pre post : List Message)
        (m : Message) (c : String),
        m.content.length < c.length →
          num_tokens encode (pre ++ [m] ++ post) <
            num_tokens encode (pre ++ [{ m with content := c }] ++ post) := by
  intro hcl
  have h := hcl pairEncode [] [] ⟨"user", "a", none⟩ "ab" (by decide)
  revert h
  decide

/-- C7 amended: for a fixed tokenizer whose encoding length is strictly
increasing in text length, `num_tokens` is strictly increasing in message
text length: replacing the content of any message in the list by strictly
longer text strictly increases the count.  (In general the count is
strictly increasing in the tokenizer length of the content, not in raw
text length, as `num_tokens_text_length_not_strict_mono` shows.) -/
theorem num_tokens_strict_mono_content (encode : String → List Nat)
    (hmono : ∀ s t : String, s.length < t.length →
      (encode s).length < (encode t).length)
    (pre post : List Message) (m : Message) (c : String)
    (hc : m.content.length < c.length) :
    num_tokens encode (pre ++ [m] ++ post) <
      num_tokens encode (pre ++ [{ m with content := c }] ++ post) := by
  have hm := hmono m.content c hc
  rw [num_tokens_eq_specCount, num_tokens_eq_specCount, specCount, specCount]
  simp only [List.map_append, List.sum_append, List.map_cons, List.map_nil,
    List.sum_cons, List.sum_nil]
  have key : specMessageCount encode m <
      specMessageCount encode { m with content := c } := by
    cases h : m.name <;>
      simp [specMessageCount, Message.items, h] <;>
      omega
  omega

/-- A tokenizer instance with one token per character, whose encoding
length is strictly increasing in text length. -/
def charEncode : String → List Nat := fun s => s.data.map Char.toNat

/-- The one-token-per-character tokenizer encodes to exactly the text
length. -/
lemma charEncode_length (s : String) : (charEncode s).length = s.length := by
  simp [charEncode]

/-- Witness for the amended C7 at a one-character versus two-character
content. -/
theorem num_tokens_strict_mono_content_witness :
    (∀ s t : String, s.length < t.length →
        (charEncode s).length < (charEncode t).length) ∧
      (("a" : String).length < ("ab" : String).length) ∧
      num_tokens charEncode ([] ++ [⟨"user", "a", none⟩] ++ []) <
        num_tokens charEncode ([] ++ [⟨"user", "ab", none⟩] ++ []) :=
  ⟨fun s t h => by rw [charEncode_length, charEncode_length]; exact h,
    by decide,
    num_tokens_strict_mono_content charEncode
      (fun s t h => by rw [charEncode_length, charEncode_length]; exact h)
      [] [] ⟨"user", "a", none⟩ "ab" (by decide)⟩
